import Mathlib

/-!
Verification of the monitoring repository against its specification.

The frontend source (status cards, testers, settings atoms) is embedded
directly from the JavaScript files. The backend health-check engine
(Failure Tracker, Notifier) has no implementation in this excerpt; it is
modelled from the specification text, as marked on each definition.
-/

namespace FailureTracker

/-- Modelled from the spec: the four-valued target status vocabulary of the
Failure Tracker (section 3, TargetState): healthy, degraded, down, unknown.
The backend implementation is absent from the source excerpt. -/
inductive Status where
  | unknown
  | healthy
  | degraded
  | down
deriving DecidableEq

/-- Modelled from the spec: the per-target state owned by the Failure Tracker
(section 3, TargetState). Timestamps, target id and last error message are
omitted: they do not participate in the transition rule. -/
structure TargetState where
  status : Status
  consecFail : Nat
  consecSucc : Nat
deriving DecidableEq

/-- Modelled from the spec: initial state for every newly registered target
(section 4.3): status unknown, both counters zero. -/
def initState : TargetState :=
  { status := Status.unknown, consecFail := 0, consecSucc := 0 }

/-- Modelled from the spec (section 4.3, success branch): reset the
consecutive-failure count to 0, increment the consecutive-success count; if
the prior status was degraded or down and the consecutive-success count is at
least 1, transition to healthy immediately; unknown transitions to healthy on
the first successful check. -/
def applySuccess (s : TargetState) : TargetState :=
  let newSucc := s.consecSucc + 1
  let newStatus :=
    if (s.status = Status.degraded ∨ s.status = Status.down) ∧ 1 ≤ newSucc then
      Status.healthy
    else if s.status = Status.unknown then
      Status.healthy
    else
      s.status
  { status := newStatus, consecFail := 0, consecSucc := newSucc }

/-- Modelled from the spec (section 4.3, failure branch): reset the
consecutive-success count to 0, increment the consecutive-failure count C;
if C is at least the alert threshold T the status becomes down, otherwise it
becomes degraded when the prior status was healthy or unknown and is left
unchanged otherwise. -/
def applyFail (T : Nat) (s : TargetState) : TargetState :=
  let newFail := s.consecFail + 1
  let newStatus :=
    if T ≤ newFail then
      Status.down
    else if s.status = Status.healthy ∨ s.status = Status.unknown then
      Status.degraded
    else
      s.status
  { status := newStatus, consecFail := newFail, consecSucc := 0 }

/-- Modelled from the spec: the transition rule applied on each CheckResult
for a target with alert threshold T; the CheckResult is reduced to its
success flag, the only field the rule consults. -/
def step (T : Nat) (s : TargetState) (ok : Bool) : TargetState :=
  if ok then applySuccess s else applyFail T s

/-- Modelled from the spec: processing a sequence of CheckResults in order,
one at a time (section 3 invariants: each CheckResult advances the state by
exactly one check). -/
def runChecks (T : Nat) (s : TargetState) (results : List Bool) : TargetState :=
  results.foldl (step T) s

/-- Modelled from the spec (section 4.4): the Notifier fires only when the
old status differs from the new status and the new status is down or healthy.
The backend Notifier implementation is absent from the source excerpt. -/
def notifyFires (oldS newS : Status) : Bool :=
  decide (oldS ≠ newS ∧ (newS = Status.down ∨ newS = Status.healthy))

/-- Modelled from the spec (sections 4.3 and 4.4): every transition is handed
to the Notifier as an (old status, new status) event; this collects the
events that actually fire while processing a sequence of CheckResults. -/
def runNotify (T : Nat) : TargetState → List Bool → List (Status × Status)
  | _, [] => []
  | s, r :: rs =>
    let s2 := step T s r
    if notifyFires s.status s2.status then
      (s.status, s2.status) :: runNotify T s2 rs
    else
      runNotify T s2 rs

/-- Modelled from the spec (section 3 invariants): the status as a pure
function of the consecutive-failure count, the consecutive-success count and
the alert threshold. -/
def statusOf (T failCount succCount : Nat) : Status :=
  if failCount = 0 then
    if succCount = 0 then Status.unknown else Status.healthy
  else if T ≤ failCount then Status.down
  else Status.degraded

end FailureTracker

namespace ExchangeMonitoring

/-- Embeds getStatusColor from src/frontend/src/pages/ExchangeMonitoring.js,
defined identically at lines 99-110 (ExchangePanel) and 283-294 (the page
component): chip color per status string, any other value mapped to the
default color. -/
def getStatusColor (status : String) : String :=
  if status = "healthy" then "success"
  else if status = "degraded" then "warning"
  else if status = "down" then "error"
  else "default"

end ExchangeMonitoring

namespace ConsolidatedStatusCard

/-- Embeds calculateOverallStatus from the ConsolidatedStatusCard component,
src/unnamed/part_000 lines 35-39. -/
def calculateOverallStatus (apiStatus botStatus : String) : String :=
  if apiStatus = "down" ∨ botStatus = "down" then "down"
  else if apiStatus = "degraded" ∨ botStatus = "degraded" then "degraded"
  else "healthy"

/-- Embeds getStatusIcon from the ConsolidatedStatusCard component,
src/unnamed/part_000 lines 73-84; icons are named by their component. -/
def getStatusIcon (status : String) : String :=
  if status = "healthy" then "CheckCircleIcon"
  else if status = "degraded" then "WarningIcon"
  else if status = "down" then "ErrorIcon"
  else "CircularProgress"

/-- Embeds getStatusColor from the ConsolidatedStatusCard component,
src/unnamed/part_000 lines 86-97. -/
def getStatusColor (status : String) : String :=
  if status = "healthy" then "success"
  else if status = "degraded" then "warning"
  else if status = "down" then "error"
  else "default"

end ConsolidatedStatusCard

namespace Dashboard

/-- Embeds getStatusColor from the Dashboard page, src/unnamed/part_001
lines 129-140: the distinguished status values here are healthy, warning and
failed, everything else maps to the default color. -/
def getStatusColor (status : String) : String :=
  if status = "healthy" then "success"
  else if status = "warning" then "warning"
  else if status = "failed" then "error"
  else "default"

/-- The per-status counts computed by the Dashboard page. -/
structure StatusCounts where
  healthy : Nat
  warning : Nat
  critical : Nat
  total : Nat
deriving DecidableEq

/-- Embeds getStatusCounts from the Dashboard page, src/unnamed/part_001
lines 95-108; each target is represented by its status string, and a missing
targets list (null systemStatus) yields all zero counts. -/
def getStatusCounts (targets : Option (List String)) : StatusCounts :=
  match targets with
  | none => { healthy := 0, warning := 0, critical := 0, total := 0 }
  | some ts =>
    { healthy := (ts.filter (fun t => t == "healthy")).length,
      warning := (ts.filter (fun t => t == "warning")).length,
      critical := (ts.filter (fun t => t == "failed")).length,
      total := ts.length }

end Dashboard

namespace ApiTester

/-- Embeds the shape of the mock response resolved by simulateApiRequest in
src/frontend/src/components/exchange/ApiTester.js lines 128-167; the
timestamp, random price, server time and response-time header are
environment-dependent mock data and are summarised away, keeping the fields
the claim is about. -/
structure MockResponse where
  ok : Bool
  status : Nat
  statusText : String
deriving DecidableEq

/-- Embeds simulateApiRequest (ApiTester.js lines 128-167): the promise
always resolves, never rejects; the argument stands for the random draw
Math.random() > 0.1 selecting the success branch, and false yields the
simulated 429 rate-limit response. -/
def simulateApiRequest (randomAboveTenth : Bool) : MockResponse :=
  if randomAboveTenth then
    { ok := true, status := 200, statusText := "OK" }
  else
    { ok := false, status := 429, statusText := "Too Many Requests" }

/-- Embeds the history entry built in handleSendRequest
(ApiTester.js lines 183-191). -/
structure HistoryItem where
  id : Nat
  timestamp : String
  exchange : String
  method : String
  url : String
  status : Nat
  success : Bool
deriving DecidableEq

/-- Embeds the history update in handleSendRequest (ApiTester.js line 192):
setHistory prepends the new item to the previous history and keeps only the
first 10 entries. -/
def addToHistory (item : HistoryItem) (prev : List HistoryItem) : List HistoryItem :=
  (item :: prev).take 10

end ApiTester

namespace WebhookTester

/-- Embeds the mock response object built by handleSendWebhook in
src/frontend/src/components/exchange/WebhookTester.js lines 207-217;
timestamp and processing time are environment-dependent and omitted. -/
structure MockWebhookResponse where
  success : Bool
  statusCode : Nat
  message : String
  details : String
deriving DecidableEq

/-- Embeds handleSendWebhook (WebhookTester.js lines 193-232): with an empty
URL and mock mode off the send is refused before parsing; otherwise, whenever
JSON.parse accepts the payload (the payloadParses argument), the fixed mock
response is produced regardless of the payload content; a parse failure
produces no response (only an error snackbar). -/
def handleSendWebhook (useMock : Bool) (webhookUrl : String)
    (payloadParses : Bool) : Option MockWebhookResponse :=
  if webhookUrl = "" ∧ useMock = false then none
  else if payloadParses then
    some { success := true, statusCode := 200,
           message := "Webhook received successfully",
           details := if useMock then "Mock response - no actual request was made"
                      else "Webhook sent to " ++ webhookUrl }
  else none

end WebhookTester

namespace settings

/-- Embeds the JavaScript idiom value-or-fallback used by getInitialApiUrl
and getInitialApiKey: a null localStorage result is falsy and gives the
empty-string fallback; an empty stored string is also falsy but the fallback
is the empty string as well, so the stored string is returned unchanged. -/
def jsOrEmpty (v : Option String) : String :=
  match v with
  | none => ""
  | some s => s

/-- The ECMAScript whitespace set skipped by parseInt: tab, line feed,
vertical tab, form feed, carriage return, space, no-break space, the BOM,
and the Unicode space separators and line and paragraph separators. -/
def jsWhitespace (c : Char) : Bool :=
  c = ' ' || c = '\t' || c = '\n' || c = '\r' ||
  c.toNat = 11 || c.toNat = 12 || c.toNat = 160 || c.toNat = 65279 ||
  c.toNat = 0x1680 || (0x2000 ≤ c.toNat && c.toNat ≤ 0x200A) ||
  c.toNat = 0x2028 || c.toNat = 0x2029 || c.toNat = 0x202F ||
  c.toNat = 0x205F || c.toNat = 0x3000

/-- The maximal leading run of decimal digits, as consumed by parseInt. -/
def digitsPrefix (cs : List Char) : List Char :=
  cs.takeWhile (fun c => c.isDigit)

/-- Numeric value of a decimal digit list, most significant digit first. -/
def digitsVal (cs : List Char) : Nat :=
  cs.foldl (fun a c => a * 10 + (c.toNat - 48)) 0

/-- Hexadecimal digit recognizer for the 0x radix detection of parseInt. -/
def isHexDigitChar (c : Char) : Bool :=
  c.isDigit || ('a' ≤ c && c ≤ 'f') || ('A' ≤ c && c ≤ 'F')

/-- The maximal leading run of hexadecimal digits. -/
def hexDigitsPrefix (cs : List Char) : List Char :=
  cs.takeWhile isHexDigitChar

/-- Numeric value of one hexadecimal digit. -/
def hexDigitVal (c : Char) : Nat :=
  if c.isDigit then c.toNat - 48
  else if 'a' ≤ c && c ≤ 'f' then c.toNat - 87
  else c.toNat - 55

/-- Numeric value of a hexadecimal digit list, most significant first. -/
def hexDigitsVal (cs : List Char) : Nat :=
  cs.foldl (fun a c => a * 16 + hexDigitVal c) 0

/-- The unsigned part of parseInt with no radix argument: a 0x or 0X prefix
switches to the maximal run of hexadecimal digits read in base 16, anything
else is the maximal run of decimal digits read in base 10, and NaN (none)
when no digit of the selected radix follows. -/
def parseUnsigned (cs : List Char) : Option Nat :=
  match cs with
  | '0' :: x :: rest =>
    if x = 'x' ∨ x = 'X' then
      let d := hexDigitsPrefix rest
      if d.isEmpty then none else some (hexDigitsVal d)
    else
      let d := digitsPrefix ('0' :: x :: rest)
      if d.isEmpty then none else some (digitsVal d)
  | other =>
    let d := digitsPrefix other
    if d.isEmpty then none else some (digitsVal d)

/-- Embeds JavaScript parseInt as called by getInitialRefreshInterval, with
no radix argument: leading ECMAScript whitespace is skipped, an optional
sign is read, then a 0x or 0X prefix selects hexadecimal and otherwise the
maximal run of decimal digits is read; the result is NaN (none) when no
digit follows. -/
def jsParseIntStr (s : String) : Option Int :=
  let cs := s.data.dropWhile jsWhitespace
  match cs with
  | '-' :: rest => (parseUnsigned rest).map (fun n => -(n : Int))
  | '+' :: rest => (parseUnsigned rest).map (fun n => (n : Int))
  | other => (parseUnsigned other).map (fun n => (n : Int))

/-- Embeds parseInt applied to the result of localStorage.getItem: a null
result (absent key) yields NaN. -/
def jsParseInt (v : Option String) : Option Int :=
  match v with
  | none => none
  | some s => jsParseIntStr s

/-- Embeds getInitialApiUrl (settings.js lines 4-10). The store argument is
none when reading localStorage throws, some none when the key is absent, and
some (some s) when the key holds s. -/
def getInitialApiUrl (store : Option (Option String)) : String :=
  match store with
  | none => ""
  | some v => jsOrEmpty v

/-- Embeds getInitialApiKey (settings.js lines 12-18), identical in shape to
getInitialApiUrl. -/
def getInitialApiKey (store : Option (Option String)) : String :=
  match store with
  | none => ""
  | some v => jsOrEmpty v

/-- Embeds getInitialRefreshInterval (settings.js lines 20-26):
parseInt of the stored value, falling back to 60000 when the read throws or
the parse yields NaN or 0 (both falsy under the or-operator). -/
def getInitialRefreshInterval (store : Option (Option String)) : Int :=
  match store with
  | none => 60000
  | some v =>
    match jsParseInt v with
    | none => 60000
    | some n => if n = 0 then 60000 else n

end settings

theorem FailureTracker.applySuccess_status (s : TargetState) :
    (applySuccess s).status = Status.healthy ∧ (applySuccess s).consecFail = 0 := by
  cases h : s.status <;> simp [applySuccess, h]

theorem FailureTracker.runChecks_append (T : Nat) (s : TargetState) (l1 l2 : List Bool) :
    runChecks T s (l1 ++ l2) = runChecks T (runChecks T s l1) l2 := by
  simp [runChecks, List.foldl_append]

theorem FailureTracker.step_status_ne_unknown (T : Nat) (s : TargetState) (r : Bool)
    (h : s.status ≠ Status.unknown) : (step T s r).status ≠ Status.unknown := by
  cases r with
  | true => simp [(applySuccess_status s).1, step]
  | false => cases hs : s.status <;> simp [step, applyFail, hs] <;> split_ifs <;> simp_all

theorem FailureTracker.runChecks_status_ne_unknown (T : Nat) (l : List Bool) :
    ∀ s : TargetState, s.status ≠ Status.unknown →
      (runChecks T s l).status ≠ Status.unknown := by
  induction l with
  | nil => intro s h; simpa [runChecks] using h
  | cons r rs ih =>
    intro s h
    simpa [runChecks, List.foldl_cons] using
      ih (step T s r) (step_status_ne_unknown T s r h)

theorem FailureTracker.runNotify_mem (T : Nat) (l : List Bool) :
    ∀ (s : TargetState) (p : Status × Status),
      p ∈ runNotify T s l → notifyFires p.1 p.2 = true := by
  induction l with
  | nil => intro s p hp; simp [runNotify] at hp
  | cons r rs ih =>
    intro s p hp
    by_cases h : notifyFires s.status (step T s r).status = true
    · rw [runNotify, if_pos h] at hp
      rcases List.mem_cons.mp hp with h1 | h2
      · rw [h1]; exact h
      · exact ih _ _ h2
    · rw [runNotify, if_neg h] at hp
      exact ih _ _ hp

theorem FailureTracker.step_preserves_statusOf (T : Nat) (s : TargetState) (r : Bool)
    (h : s.status = statusOf T s.consecFail s.consecSucc) :
    (step T s r).status
      = statusOf T (step T s r).consecFail (step T s r).consecSucc := by
  cases r with
  | true => cases hs : s.status <;> simp [step, applySuccess, statusOf, hs]
  | false =>
    by_cases hT : T ≤ s.consecFail + 1
    · simp [step, applyFail, statusOf, hT]
    · cases hs : s.status with
      | unknown => simp [step, applyFail, statusOf, hT, hs]
      | healthy => simp [step, applyFail, statusOf, hT, hs]
      | degraded => simp [step, applyFail, statusOf, hT, hs]
      | down =>
        exfalso
        rw [hs] at h
        unfold statusOf at h
        split_ifs at h <;> simp_all <;> omega

theorem FailureTracker.runChecks_preserves_statusOf (T : Nat) (l : List Bool) :
    ∀ s : TargetState, s.status = statusOf T s.consecFail s.consecSucc →
      (runChecks T s l).status
        = statusOf T (runChecks T s l).consecFail (runChecks T s l).consecSucc := by
  induction l with
  | nil => intro s h; simpa [runChecks] using h
  | cons r rs ih =>
    intro s h
    simpa [runChecks, List.foldl_cons] using
      ih (step T s r) (step_preserves_statusOf T s r h)

/-- C1: with threshold 3, from the initial unknown state, two failures leave
the status degraded (not down); three failures leave the status down with a
consecutive-failure count of exactly 3. -/
theorem tracker_threshold_three_failures :
    (FailureTracker.runChecks 3 FailureTracker.initState [false, false]).status
        = FailureTracker.Status.degraded
    ∧ (FailureTracker.runChecks 3 FailureTracker.initState [false, false]).status
        ≠ FailureTracker.Status.down
    ∧ (FailureTracker.runChecks 3 FailureTracker.initState [false, false, false]).status
        = FailureTracker.Status.down
    ∧ (FailureTracker.runChecks 3 FailureTracker.initState [false, false, false]).consecFail
        = 3 := by
  refine ⟨rfl, ?_, rfl, rfl⟩
  decide

/-- C2: for every threshold T at least 1 and every status reached from the
initial state by any number of consecutive failed checks, a single successful
check transitions the status to healthy immediately and resets the
consecutive-failure count to 0. -/
theorem tracker_single_success_recovers (T n : Nat) (hT : 1 ≤ T) :
    (FailureTracker.step T
        (FailureTracker.runChecks T FailureTracker.initState (List.replicate n false))
        true).status = FailureTracker.Status.healthy
    ∧ (FailureTracker.step T
        (FailureTracker.runChecks T FailureTracker.initState (List.replicate n false))
        true).consecFail = 0 := by
  simp only [FailureTracker.step, if_pos rfl]
  exact FailureTracker.applySuccess_status _

/-- Witness for C2 at T = 3, n = 5. -/
theorem tracker_single_success_recovers_witness :
    1 ≤ 3
    ∧ ((FailureTracker.step 3
        (FailureTracker.runChecks 3 FailureTracker.initState (List.replicate 5 false))
        true).status = FailureTracker.Status.healthy
      ∧ (FailureTracker.step 3
        (FailureTracker.runChecks 3 FailureTracker.initState (List.replicate 5 false))
        true).consecFail = 0) :=
  ⟨by decide, tracker_single_success_recovers 3 5 (by decide)⟩

/-- C3: for every sequence of CheckResults processed from the initial unknown
state, once the status has taken a value other than unknown, no later step of
the transition relation returns it to unknown. -/
theorem tracker_unknown_never_reentered (T : Nat) (l1 l2 : List Bool)
    (h : (FailureTracker.runChecks T FailureTracker.initState l1).status
        ≠ FailureTracker.Status.unknown) :
    (FailureTracker.runChecks T FailureTracker.initState (l1 ++ l2)).status
      ≠ FailureTracker.Status.unknown := by
  rw [FailureTracker.runChecks_append]
  exact FailureTracker.runChecks_status_ne_unknown T l2 _ h

/-- Witness for C3 at T = 3, l1 = [false], l2 = [true, false]. -/
theorem tracker_unknown_never_reentered_witness :
    ((FailureTracker.runChecks 3 FailureTracker.initState [false]).status
        ≠ FailureTracker.Status.unknown)
    ∧ (FailureTracker.runChecks 3 FailureTracker.initState
        ([false] ++ [true, false])).status ≠ FailureTracker.Status.unknown :=
  ⟨by decide, tracker_unknown_never_reentered 3 [false] [true, false] (by decide)⟩

/-- C4: the Notifier fires only on steps where the old status differs from
the new status and the new status is down or healthy, exactly once per such
distinct transition; with threshold 3, five consecutive failures from the
initial state produce exactly one notification, the single degraded-to-down
transition, not five. -/
theorem notifier_once_per_transition :
    (∀ (T : Nat) (s : FailureTracker.TargetState) (l : List Bool)
        (p : FailureTracker.Status × FailureTracker.Status),
        p ∈ FailureTracker.runNotify T s l →
          FailureTracker.notifyFires p.1 p.2 = true)
    ∧ FailureTracker.runNotify 3 FailureTracker.initState (List.replicate 5 false)
        = [(FailureTracker.Status.degraded, FailureTracker.Status.down)] := by
  constructor
  · intro T s l p hp
    exact FailureTracker.runNotify_mem T l s p hp
  · decide

/-- Witness for C4: the one event emitted for five straight failures at
threshold 3 satisfies the firing predicate. -/
theorem notifier_once_per_transition_witness :
    ((FailureTracker.Status.degraded, FailureTracker.Status.down)
        ∈ FailureTracker.runNotify 3 FailureTracker.initState (List.replicate 5 false))
    ∧ FailureTracker.notifyFires FailureTracker.Status.degraded
        FailureTracker.Status.down = true :=
  ⟨by decide,
    notifier_once_per_transition.1 3 FailureTracker.initState
      (List.replicate 5 false)
      (FailureTracker.Status.degraded, FailureTracker.Status.down) (by decide)⟩

/-- C5: for every state reachable from the initial state by any sequence of
CheckResults, the status field equals the single fixed pure function statusOf
of the consecutive-failure count, the consecutive-success count and the alert
threshold; in particular two reachable states with equal counts and equal
threshold have equal status. -/
theorem tracker_status_pure_function (T : Nat) (l : List Bool) :
    (FailureTracker.runChecks T FailureTracker.initState l).status
      = FailureTracker.statusOf T
          (FailureTracker.runChecks T FailureTracker.initState l).consecFail
          (FailureTracker.runChecks T FailureTracker.initState l).consecSucc :=
  FailureTracker.runChecks_preserves_statusOf T l FailureTracker.initState
    (by simp [FailureTracker.initState, FailureTracker.statusOf])

/-- C6 counterexample: the Dashboard page's display logic distinguishes the
values warning and failed, which are outside the claimed healthy, degraded,
down vocabulary, and maps the Failure Tracker's degraded and down values to
the default rendering; its per-status counts likewise classify by failed, so
a target with status down is not counted as critical. -/
theorem dashboard_vocabulary_counterexample :
    Dashboard.getStatusColor "degraded" = "default"
    ∧ Dashboard.getStatusColor "down" = "default"
    ∧ Dashboard.getStatusColor "failed" = "error"
    ∧ Dashboard.getStatusColor "warning" = "warning"
    ∧ (Dashboard.getStatusCounts (some ["down"])).critical = 0
    ∧ (Dashboard.getStatusCounts (some ["failed"])).critical = 1 := by
  refine ⟨by decide, by decide, by decide, by decide, by decide, by decide⟩

/-- C6 amended: the exchange-monitoring components (ExchangeMonitoring page
and ConsolidatedStatusCard) distinguish exactly healthy, degraded and down,
mapping any other status to a default rendering, while the Dashboard page
distinguishes healthy, warning and failed instead, mapping any other value,
including degraded and down, to the default rendering. -/
theorem status_vocabulary_amended :
    (∀ s : String, s ≠ "healthy" → s ≠ "degraded" → s ≠ "down" →
        ExchangeMonitoring.getStatusColor s = "default"
        ∧ ConsolidatedStatusCard.getStatusColor s = "default"
        ∧ ConsolidatedStatusCard.getStatusIcon s = "CircularProgress")
    ∧ (∀ s : String, s ≠ "healthy" → s ≠ "warning" → s ≠ "failed" →
        Dashboard.getStatusColor s = "default") := by
  constructor
  · intro s h1 h2 h3
    exact ⟨by simp [ExchangeMonitoring.getStatusColor, h1, h2, h3],
           by simp [ConsolidatedStatusCard.getStatusColor, h1, h2, h3],
           by simp [ConsolidatedStatusCard.getStatusIcon, h1, h2, h3]⟩
  · intro s h1 h2 h3
    simp [Dashboard.getStatusColor, h1, h2, h3]

/-- Witness for the amended C6 at the status strings unknown and degraded. -/
theorem status_vocabulary_amended_witness :
    (("unknown" : String) ≠ "healthy" ∧ ("unknown" : String) ≠ "degraded"
      ∧ ("unknown" : String) ≠ "down"
      ∧ (ExchangeMonitoring.getStatusColor "unknown" = "default"
        ∧ ConsolidatedStatusCard.getStatusColor "unknown" = "default"
        ∧ ConsolidatedStatusCard.getStatusIcon "unknown" = "CircularProgress"))
    ∧ (("degraded" : String) ≠ "healthy" ∧ ("degraded" : String) ≠ "warning"
      ∧ ("degraded" : String) ≠ "failed"
      ∧ Dashboard.getStatusColor "degraded" = "default") :=
  ⟨⟨by decide, by decide, by decide,
    status_vocabulary_amended.1 "unknown" (by decide) (by decide) (by decide)⟩,
   ⟨by decide, by decide, by decide,
    status_vocabulary_amended.2 "degraded" (by decide) (by decide) (by decide)⟩⟩

/-- C7: the API and webhook testers perform no network request; the simulated
API request always resolves with either the status-200 success response or
the status-429 rate-limit response, and whenever the webhook payload parses
as JSON, the webhook tester produces a mock response with success true and
status code 200 regardless of the payload content. -/
theorem testers_always_mock :
    (∀ r : Bool,
        ApiTester.simulateApiRequest r
            = { ok := true, status := 200, statusText := "OK" }
        ∨ ApiTester.simulateApiRequest r
            = { ok := false, status := 429, statusText := "Too Many Requests" })
    ∧ (∀ (useMock : Bool) (url : String) (payloadParses : Bool)
          (resp : WebhookTester.MockWebhookResponse),
        WebhookTester.handleSendWebhook useMock url payloadParses = some resp →
          resp.success = true ∧ resp.statusCode = 200) := by
  constructor
  · intro r
    cases r
    · right; rfl
    · left; rfl
  · intro useMock url payloadParses resp h
    unfold WebhookTester.handleSendWebhook at h
    split_ifs at h
    all_goals injection h with h2
    all_goals subst h2
    all_goals exact ⟨rfl, rfl⟩

/-- Witness for C7: the mock-mode webhook send with a parsing payload yields
the fixed success response. -/
theorem testers_always_mock_witness :
    WebhookTester.handleSendWebhook true "" true
        = some { success := true, statusCode := 200,
                 message := "Webhook received successfully",
                 details := "Mock response - no actual request was made" }
    ∧ ({ success := true, statusCode := 200,
         message := "Webhook received successfully",
         details := "Mock response - no actual request was made"
         : WebhookTester.MockWebhookResponse }).success = true
    ∧ ({ success := true, statusCode := 200,
         message := "Webhook received successfully",
         details := "Mock response - no actual request was made"
         : WebhookTester.MockWebhookResponse }).statusCode = 200 :=
  ⟨by decide,
    (testers_always_mock.2 true "" true _ (by decide)).1,
    (testers_always_mock.2 true "" true _ (by decide)).2⟩

/-- C8: calculateOverallStatus returns down exactly when at least one
argument is down; otherwise it returns degraded exactly when at least one
argument is degraded; otherwise it returns healthy, so any other input value,
including unknown, is treated as healthy in the aggregate. -/
theorem overall_status_aggregation (a b : String) :
    (ConsolidatedStatusCard.calculateOverallStatus a b = "down"
        ↔ (a = "down" ∨ b = "down"))
    ∧ (a ≠ "down" → b ≠ "down" →
        (ConsolidatedStatusCard.calculateOverallStatus a b = "degraded"
          ↔ (a = "degraded" ∨ b = "degraded")))
    ∧ (a ≠ "down" → b ≠ "down" → a ≠ "degraded" → b ≠ "degraded" →
        ConsolidatedStatusCard.calculateOverallStatus a b = "healthy")
    ∧ ConsolidatedStatusCard.calculateOverallStatus "unknown" "unknown"
        = "healthy" := by
  unfold ConsolidatedStatusCard.calculateOverallStatus
  refine ⟨?_, ?_, ?_, by decide⟩ <;>
    by_cases ha : a = "down" <;> by_cases hb : b = "down" <;>
    by_cases ha2 : a = "degraded" <;> by_cases hb2 : b = "degraded" <;>
    simp_all

/-- Witness for C8 at the inputs unknown and degraded. -/
theorem overall_status_aggregation_witness :
    (("unknown" : String) ≠ "down") ∧ (("degraded" : String) ≠ "down")
    ∧ (ConsolidatedStatusCard.calculateOverallStatus "unknown" "degraded"
          = "degraded"
        ↔ (("unknown" : String) = "degraded" ∨ ("degraded" : String) = "degraded")) :=
  ⟨by decide, by decide,
    (overall_status_aggregation "unknown" "degraded").2.1 (by decide) (by decide)⟩

/-- C9: every completed send prepends exactly one entry to the request
history; the updated history has the new item at the head, its tail is the
previous history truncated to 9 entries, its length grows by one up to the
cap, and it never exceeds 10 entries. -/
theorem request_history_bounded (item : ApiTester.HistoryItem)
    (prev : List ApiTester.HistoryItem) :
    (ApiTester.addToHistory item prev).length = min 10 (prev.length + 1)
    ∧ (ApiTester.addToHistory item prev).length ≤ 10
    ∧ (ApiTester.addToHistory item prev).head? = some item
    ∧ (ApiTester.addToHistory item prev).tail = prev.take 9 := by
  refine ⟨?_, ?_, rfl, rfl⟩
  · simp only [ApiTester.addToHistory, List.length_take, List.length_cons]
  · simp only [ApiTester.addToHistory, List.length_take]
    exact Nat.min_le_left _ _

theorem settings.jsParseInt_hex_prefix :
    settings.jsParseIntStr "0x10" = some 16
    ∧ settings.jsParseIntStr "-0x10" = some (-16)
    ∧ settings.getInitialRefreshInterval (some (some "0x10")) = 16 :=
  ⟨by decide, by decide, by decide⟩

/-- C10: the settings atom initializers never throw and never yield an absent
value: when reading localStorage throws or the stored value is absent, apiUrl
and apiKey come out as the empty string and refreshInterval as 60000; and
refreshInterval also falls back to 60000 whenever the stored value does not
parse as an integer or parses to 0. -/
theorem settings_initializers_fallback (store : Option (Option String)) :
    (store = none →
        settings.getInitialApiUrl store = ""
        ∧ settings.getInitialApiKey store = ""
        ∧ settings.getInitialRefreshInterval store = 60000)
    ∧ (store = some none →
        settings.getInitialApiUrl store = ""
        ∧ settings.getInitialApiKey store = ""
        ∧ settings.getInitialRefreshInterval store = 60000)
    ∧ (∀ v, store = some v → settings.jsParseInt v = none →
        settings.getInitialRefreshInterval store = 60000)
    ∧ (∀ v, store = some v → settings.jsParseInt v = some 0 →
        settings.getInitialRefreshInterval store = 60000) := by
  refine ⟨?_, ?_, ?_, ?_⟩
  · rintro rfl; exact ⟨rfl, rfl, rfl⟩
  · rintro rfl; exact ⟨rfl, rfl, rfl⟩
  · rintro v rfl h
    simp [settings.getInitialRefreshInterval, h]
  · rintro v rfl h
    simp [settings.getInitialRefreshInterval, h]

/-- Witness for C10: a throwing read, an unparsable stored value and a stored
zero all fall back. -/
theorem settings_initializers_fallback_witness :
    (settings.getInitialApiUrl none = ""
      ∧ settings.getInitialApiKey none = ""
      ∧ settings.getInitialRefreshInterval none = 60000)
    ∧ (settings.jsParseInt (some "abc") = none
      ∧ settings.getInitialRefreshInterval (some (some "abc")) = 60000)
    ∧ (settings.jsParseInt (some "0") = some 0
      ∧ settings.getInitialRefreshInterval (some (some "0")) = 60000) :=
  ⟨(settings_initializers_fallback none).1 rfl,
   ⟨by decide,
    (settings_initializers_fallback (some (some "abc"))).2.2.1
      (some "abc") rfl (by decide)⟩,
   ⟨by decide,
    (settings_initializers_fallback (some (some "0"))).2.2.2
      (some "0") rfl (by decide)⟩⟩
